import Mathlib

/-!
Verification of the SoC bot repository: a shallow embedding of the
season-lookup tables, the error-recovery cascade, the tutorial retry loop,
the non-maximum-suppression pass, season OCR matching, the settings model,
the complex-swipe decomposition and the resource check, with theorems
settling the specification claims C1 through C10.
-/

set_option maxRecDepth 100000

namespace SoC

/-- Embedding of `get_season_for_server` from `src/utils/helpers.py`
(lines 176-203): an if/elif chain over the server number returning the
season name strings exactly as in the source. -/
def get_season_for_server (server_number : Int) : String :=
  if server_number ≥ 577 then "Сезон S1"
  else if 541 ≤ server_number ∧ server_number ≤ 576 then "Сезон S2"
  else if 505 ≤ server_number ∧ server_number ≤ 540 then "Сезон S3"
  else if 481 ≤ server_number ∧ server_number ≤ 504 then "Сезон S4"
  else if 433 ≤ server_number ∧ server_number ≤ 480 then "Сезон S5"
  else if 409 ≤ server_number ∧ server_number ≤ 432 then "Сезон X1"
  else if 266 ≤ server_number ∧ server_number ≤ 407 then "Сезон X2"
  else if 1 ≤ server_number ∧ server_number ≤ 264 then "Сезон X3"
  else "Неизвестный сезон"

namespace BotStatistics

/-- Embedding of `BotStatistics._get_season_for_server` from
`src/models/statistics.py` (lines 306-333); the Python name's leading
underscore is dropped.  The body is a literal duplicate of the helper. -/
def get_season_for_server (server_number : Int) : String :=
  if server_number ≥ 577 then "Сезон S1"
  else if 541 ≤ server_number ∧ server_number ≤ 576 then "Сезон S2"
  else if 505 ≤ server_number ∧ server_number ≤ 540 then "Сезон S3"
  else if 481 ≤ server_number ∧ server_number ≤ 504 then "Сезон S4"
  else if 433 ≤ server_number ∧ server_number ≤ 480 then "Сезон S5"
  else if 409 ≤ server_number ∧ server_number ≤ 432 then "Сезон X1"
  else if 266 ≤ server_number ∧ server_number ≤ 407 then "Сезон X2"
  else if 1 ≤ server_number ∧ server_number ≤ 264 then "Сезон X3"
  else "Неизвестный сезон"

end BotStatistics

/-- The season / server-range table `SEASON_SERVER_RANGES` from
`src/core/tutorial/steps_data.py` (the repository's documented ranges,
reproduced in the spec's season table): name, lower bound, upper bound. -/
def SEASON_SERVER_RANGES : List (String × Int × Int) :=
  [("Сезон S1", 577, 600),
   ("Сезон S2", 541, 576),
   ("Сезон S3", 505, 540),
   ("Сезон S4", 481, 504),
   ("Сезон S5", 433, 480),
   ("Сезон X1", 409, 432),
   ("Сезон X2", 266, 407),
   ("Сезон X3", 1, 264)]

/-- The documented ranges that contain a given server number
(names of table entries whose inclusive bounds contain `n`). -/
def rangesContaining (n : Int) : List String :=
  (SEASON_SERVER_RANGES.filter
    (fun e => decide (e.2.1 ≤ n ∧ n ≤ e.2.2))).map Prod.fst

/-- C1 counterexample: the claim says every server from 1 to 600 resolves
to one of the 8 named seasons and that server 601 resolves to the unknown
result; but server 265 (inside 1..600, between the X3 range 1-264 and the
X2 range 266-407) resolves to the unknown-season string, and server 601
resolves to S1 because the first branch accepts any number at or above
577. -/
theorem get_season_claim_counterexample :
    get_season_for_server 265 = "Неизвестный сезон" ∧
    get_season_for_server 408 = "Неизвестный сезон" ∧
    get_season_for_server 601 = "Сезон S1" := by
  decide

/-- C1 (amended): for every server 1..600 other than the two gap values
265 and 408, the lookup returns exactly the one documented range
containing that number, and the statistics model's duplicate agrees;
servers 577 and 600 resolve to S1, server 1 to X3; servers 0, 265 and 408
resolve to the unknown-season result; and every server at or above 577
(including 601) resolves to S1. -/
theorem get_season_amended :
    (∀ n : Nat, n < 601 → 1 ≤ n → n ≠ 265 → n ≠ 408 →
      rangesContaining (n : Int) = [get_season_for_server (n : Int)] ∧
      BotStatistics.get_season_for_server (n : Int)
        = get_season_for_server (n : Int)) ∧
    get_season_for_server 577 = "Сезон S1" ∧
    get_season_for_server 600 = "Сезон S1" ∧
    get_season_for_server 1 = "Сезон X3" ∧
    get_season_for_server 0 = "Неизвестный сезон" ∧
    (∀ m : Int, 577 ≤ m → get_season_for_server m = "Сезон S1") := by
  refine ⟨by decide, by decide, by decide, by decide, by decide, ?_⟩
  intro m hm
  unfold get_season_for_server
  rw [if_pos hm]

/-- C1 witness: the amended theorem instantiated at servers 300 and 601. -/
theorem get_season_amended_witness :
    (rangesContaining 300 = [get_season_for_server 300] ∧
      BotStatistics.get_season_for_server 300 = get_season_for_server 300) ∧
    get_season_for_server 601 = "Сезон S1" :=
  ⟨get_season_amended.1 300 (by decide) (by decide) (by decide) (by decide),
   get_season_amended.2.2.2.2.2 601 (by decide)⟩

/-! Recovery cascade (`SeaConquestBot._handle_error`, `restart_game`,
`restart_emulator` in `src/core/bot.py`).  The emulator facade is modelled
as an oracle of device operations; an operation that raises an exception
is an `Except.error`, one that returns normally is `Except.ok` carrying
the Python return value.  A screenshot result is its byte string,
modelled as a list of bytes (`if screenshot_bytes:` is truthiness, i.e.
non-emptiness). -/

/-- The device-operation oracle seen by the bot: `emulator.get_screenshot`,
`emulator.close_app`, `emulator.start_app` and
`emulator.restart_emulator`. -/
structure Device where
  get_screenshot : Except Unit (List Nat)
  close_app : Except Unit Bool
  start_app : Except Unit Bool
  restart_emulator : Except Unit Bool

namespace SeaConquestBot

/-- Embedding of `SeaConquestBot.restart_game` (`src/core/bot.py` lines
437-458): calls `close_app`, sleeps 3s, calls `start_app`, sleeps 10s and
returns `True`; any exception yields `False`.  The boolean results of
`close_app` and `start_app` are discarded, exactly as in the source. -/
def restart_game (d : Device) : Bool :=
  match d.close_app with
  | .error _ => false
  | .ok _ =>
    match d.start_app with
    | .error _ => false
    | .ok _ => true

/-- Embedding of `SeaConquestBot.restart_emulator` (`src/core/bot.py`
lines 459-476): returns the facade's boolean, with exceptions mapped to
`False`. -/
def restart_emulator (d : Device) : Bool :=
  match d.restart_emulator with
  | .error _ => false
  | .ok b => b

/-- Events recorded while `_handle_error` runs: the screenshot liveness
check, a `restart_game` call, an `emulator.restart_emulator` call, and an
explicit sleep (seconds). -/
inductive RecEv where
  | screenshot
  | gameRestart
  | emulatorReboot
  | settle (secs : Nat)
deriving DecidableEq, Repr

/-- Embedding of `SeaConquestBot._handle_error` (`src/core/bot.py` lines
479-524) together with the trace of recovery actions it performs.
Tier 1: take a screenshot, and report recovered if that neither raises
nor returns an empty byte string.  Tier 2: `restart_game`, report
recovered on `True`.  Tier 3: `restart_emulator`; on `True`, sleep 10s
and `restart_game`; otherwise report failure. -/
def handle_error (d : Device) : Bool × List RecEv :=
  let tier1 : Bool :=
    match d.get_screenshot with
    | .error _ => false
    | .ok bytes => !bytes.isEmpty
  if tier1 then (true, [.screenshot])
  else if restart_game d then (true, [.screenshot, .gameRestart])
  else if restart_emulator d then
    (restart_game d,
     [.screenshot, .gameRestart, .emulatorReboot, .settle 10, .gameRestart])
  else (false, [.screenshot, .gameRestart, .emulatorReboot])

end SeaConquestBot

/-- C2: the three-tier recovery cascade.  If the screenshot succeeds
(returns non-empty bytes), `_handle_error` reports recovered with no game
or emulator restart; if the screenshot fails but `restart_game` succeeds,
it reports recovered after exactly one game-restart attempt and no
emulator reboot; and when every device operation raises, all three tiers
— screenshot, game restart, emulator reboot — are attempted in that
order before it reports failure (the reboot having failed, the tier-3
trailing game restart is not reached). -/
theorem handle_error_cascade (d : Device) :
    (∀ bs : List Nat, d.get_screenshot = .ok bs → bs ≠ [] →
      SeaConquestBot.handle_error d = (true, [.screenshot])) ∧
    (d.get_screenshot = .error () → SeaConquestBot.restart_game d = true →
      SeaConquestBot.handle_error d = (true, [.screenshot, .gameRestart])) ∧
    (d.get_screenshot = .error () → d.close_app = .error () →
      d.start_app = .error () → d.restart_emulator = .error () →
      SeaConquestBot.handle_error d =
        (false, [.screenshot, .gameRestart, .emulatorReboot])) := by
  refine ⟨fun bs hok hne => ?_, fun hss hrg => ?_, fun hss hca hsa hre => ?_⟩
  · simp [SeaConquestBot.handle_error, hok, List.isEmpty_iff, hne]
  · simp [SeaConquestBot.handle_error, hss, hrg]
  · simp [SeaConquestBot.handle_error, SeaConquestBot.restart_game,
      SeaConquestBot.restart_emulator, hss, hca, hsa, hre]

/-- C2 witness: the cascade theorem applied to three concrete devices —
one answering screenshots, one failing screenshots but restarting the
game, and one failing every operation. -/
theorem handle_error_cascade_witness :
    SeaConquestBot.handle_error ⟨.ok [7], .error (), .error (), .error ()⟩
      = (true, [.screenshot]) ∧
    SeaConquestBot.handle_error ⟨.error (), .ok true, .ok true, .error ()⟩
      = (true, [.screenshot, .gameRestart]) ∧
    SeaConquestBot.handle_error ⟨.error (), .error (), .error (), .error ()⟩
      = (false, [.screenshot, .gameRestart, .emulatorReboot]) :=
  ⟨(handle_error_cascade _).1 [7] rfl (by decide),
   (handle_error_cascade _).2.1 rfl (by decide),
   (handle_error_cascade _).2.2 rfl rfl rfl rfl⟩

/-- C10: `restart_game` returns success whenever `close_app` and
`start_app` return without raising, even when both report boolean
failure — their return values are discarded — and consequently the
game-restart tier of `_handle_error` reports recovered although no
relaunch command succeeded. -/
theorem restart_game_ignores_return_values (d : Device) (b₁ b₂ : Bool)
    (h₁ : d.close_app = .ok b₁) (h₂ : d.start_app = .ok b₂) :
    SeaConquestBot.restart_game d = true ∧
    (d.get_screenshot = .error () →
      SeaConquestBot.handle_error d = (true, [.screenshot, .gameRestart])) := by
  have hrg : SeaConquestBot.restart_game d = true := by
    simp [SeaConquestBot.restart_game, h₁, h₂]
  exact ⟨hrg, fun hss => by simp [SeaConquestBot.handle_error, hss, hrg]⟩

/-- C10 witness: a device whose `close_app` and `start_app` both return
`False`; `restart_game` still reports success and the cascade reports
recovered. -/
theorem restart_game_ignores_return_values_witness :
    SeaConquestBot.restart_game ⟨.error (), .ok false, .ok false, .error ()⟩
      = true ∧
    SeaConquestBot.handle_error ⟨.error (), .ok false, .ok false, .error ()⟩
      = (true, [.screenshot, .gameRestart]) :=
  ⟨(restart_game_ignores_return_values _ false false rfl rfl).1,
   (restart_game_ignores_return_values _ false false rfl rfl).2 rfl⟩

/-! Tutorial loop (`SeaConquestBot._complete_tutorial`,
`src/core/bot.py` lines 222-283, and `TutorialStep`,
`src/core/tutorial/step.py`).  A step's parameter bag is modelled as an
association list restricted to the integer-valued parameters the loop
reads (`retry_count`); `_execute_step` is an oracle from the step to a
`(success, next_step)` pair.  The stop/pause checks at the top of each
iteration are idle in the scenarios the claims describe and are omitted.
The loop itself need not terminate (claim C9 exhibits a state it revisits
forever), so it is embedded as a one-iteration body plus a fuel-bounded
runner. -/

/-- Embedding of `TutorialStep` (`src/core/tutorial/step.py`): identity,
description, action tag, and a parameter bag. -/
structure TutorialStep where
  step_id : Int
  description : String
  action_type : String
  params : List (String × Int)
deriving DecidableEq, Repr

/-- Dictionary assignment `params[name] = value`: replace the existing
entry or append a new one. -/
def setPairs : List (String × Int) → String → Int → List (String × Int)
  | [], n, v => [(n, v)]
  | (k, w) :: rest, n, v =>
    if k = n then (n, v) :: rest else (k, w) :: setPairs rest n v

/-- Embedding of `TutorialStep.get_param`: dictionary lookup with a
default. -/
def TutorialStep.get_param (s : TutorialStep) (name : String)
    (default : Int) : Int :=
  match s.params.lookup name with
  | some v => v
  | none => default

/-- Embedding of `TutorialStep.set_param`. -/
def TutorialStep.set_param (s : TutorialStep) (name : String)
    (v : Int) : TutorialStep :=
  { s with params := setPairs s.params name v }

/-- Events recorded by the tutorial loop: a handler attempt on a step,
updating the step's stored `retry_count`, and a sleep (seconds). -/
inductive TutEv where
  | attempt (step_id : Int)
  | set_retry (n : Int)
  | sleep (secs : Nat)
deriving DecidableEq, Repr

/-- The mutable state of `_complete_tutorial`: the step list (whose
parameter bags the loop mutates) and `current_step_index`. -/
structure LoopState where
  steps : List TutorialStep
  idx : Nat
deriving DecidableEq, Repr

/-- Result of one iteration of the `while` body: continue with a new
state, or leave the loop with the run's boolean outcome. -/
inductive BodyResult where
  | next (st : LoopState) (evs : List TutEv)
  | finished (ok : Bool) (evs : List TutEv)
deriving DecidableEq, Repr

/-- One iteration of the `_complete_tutorial` `while` loop
(`src/core/bot.py` lines 224-273), parameterized by the
`_execute_step` oracle `exec`.  On success with an explicit next-step id
the index moves to the first step with that id, or stays unchanged when
no step matches; on success without one the index advances by 1; on
failure the step's `retry_count` (default 3) is read, and if positive it
is decremented by 1 and stored back with a 2-second pause, otherwise the
run finishes as failed.  Exhausting the list finishes the run as
successful. -/
def loopBody (ex : TutorialStep → Bool × Option Int)
    (st : LoopState) : BodyResult :=
  match st.steps[st.idx]? with
  | none => .finished true []
  | some step =>
    let r := ex step
    if r.1 then
      match r.2 with
      | some j =>
        match st.steps.findIdx? (fun s => s.step_id == j) with
        | some i => .next ⟨st.steps, i⟩ [.attempt step.step_id]
        | none => .next ⟨st.steps, st.idx⟩ [.attempt step.step_id]
      | none => .next ⟨st.steps, st.idx + 1⟩ [.attempt step.step_id]
    else
      let rc := step.get_param "retry_count" 3
      if rc > 0 then
        .next ⟨st.steps.set st.idx
                 (step.set_param "retry_count" (rc - 1)), st.idx⟩
          [.attempt step.step_id, .set_retry (rc - 1), .sleep 2]
      else
        .finished false [.attempt step.step_id]

/-- Fuel-bounded iteration of `loopBody`, accumulating the event trace;
`none` means the fuel ran out before the loop exited. -/
def runTutorial (ex : TutorialStep → Bool × Option Int) :
    Nat → LoopState → Option (Bool × List TutEv)
  | 0, _ => none
  | fuel + 1, st =>
    match loopBody ex st with
    | .finished ok evs => some (ok, evs)
    | .next st' evs =>
      match runTutorial ex fuel st' with
      | none => none
      | some (ok, tr) => some (ok, evs ++ tr)

/-- C3: a single step whose stored `retry_count` parameter is 2, driven
by a handler that always fails, is attempted exactly 3 times (the trace
holds exactly three `attempt` events), the stored counter is decremented
by exactly 1 after each failed attempt that is retried (to 1, then to 0),
a 2-second pause separates consecutive attempts, and the run then
finishes as failed (the third failure finds the counter at 0 and aborts
without a further decrement). -/
theorem tutorial_retry_exhaustion :
    runTutorial (fun _ => (false, none)) 3
      ⟨[⟨1, "step", "click", [("retry_count", 2)]⟩], 0⟩ =
      some (false,
        [.attempt 1, .set_retry 1, .sleep 2,
         .attempt 1, .set_retry 0, .sleep 2,
         .attempt 1]) := by
  decide

/-- C9: when a step handler succeeds and returns a next-step id matching
no `step_id` in the list, the loop body leaves the index (and the whole
state) unchanged, so the very same step is executed again on the next
iteration: the jump neither advances nor fails the run. -/
theorem unknown_jump_keeps_index (steps : List TutorialStep) (idx : Nat)
    (step : TutorialStep) (j : Int)
    (hstep : steps[idx]? = some step)
    (hj : ∀ s ∈ steps, s.step_id ≠ j) :
    loopBody (fun _ => (true, some j)) ⟨steps, idx⟩ =
      .next ⟨steps, idx⟩ [.attempt step.step_id] := by
  have hfind : steps.findIdx? (fun s => s.step_id == j) = none := by
    rw [List.findIdx?_eq_none_iff]
    intro s hs
    simpa using hj s hs
  simp [loopBody, hstep, hfind]

/-- C9 witness: a two-step list where the handler jumps to the absent id
99 from index 0; the state is unchanged. -/
theorem unknown_jump_keeps_index_witness :
    loopBody (fun _ => (true, some 99))
      ⟨[⟨1, "a", "click", []⟩, ⟨2, "b", "click", []⟩], 0⟩ =
      .next ⟨[⟨1, "a", "click", []⟩, ⟨2, "b", "click", []⟩], 0⟩
        [.attempt 1] :=
  unknown_jump_keeps_index _ 0 _ 99 rfl (by decide)

/-! Complex swipe (`Emulator.complex_swipe`, `src/core/emulator.py` lines
141-175).  The transport (`adb.swipe`) is an oracle from the five swipe
arguments to its boolean result; the trace records each swipe command
issued and each `time.sleep` (seconds, as an exact rational). -/

/-- Events issued by `complex_swipe`: one transport swipe command, or a
`time.sleep`, recorded in milliseconds (the source's `time.sleep(0.1)` is
100 ms). -/
inductive SwipeEv where
  | swipe (sx sy ex ey dur : Int)
  | sleep_ms (ms : Nat)
deriving DecidableEq, Repr

/-- The per-leg loop of `complex_swipe`: for each consecutive point pair
issue `adb.swipe` with the common segment duration, fold the boolean
results with `and` (initial value `True`), and sleep 0.1 s after every
leg. -/
def swipeLegs (adb_swipe : Int → Int → Int → Int → Int → Bool)
    (dur : Int) : List (Int × Int) → Bool × List SwipeEv
  | p :: q :: rest =>
    let r := adb_swipe p.1 p.2 q.1 q.2 dur
    let t := swipeLegs adb_swipe dur (q :: rest)
    (r && t.1, .swipe p.1 p.2 q.1 q.2 dur :: .sleep_ms 100 :: t.2)
  | _ => (true, [])

/-- Embedding of `Emulator.complex_swipe`: fewer than 2 points fails
immediately with no device command; otherwise the total duration is
integer-divided by `point_count - 1` and the legs are executed in
order. -/
def complex_swipe (adb_swipe : Int → Int → Int → Int → Int → Bool)
    (points : List (Int × Int)) (duration_ms : Int) : Bool × List SwipeEv :=
  if points.length < 2 then (false, [])
  else
    swipeLegs adb_swipe (duration_ms / ((points.length : Int) - 1)) points

/-- C7: a 4-point swipe with total duration 1500 ms issues exactly 3
legs of 500 ms each (1500 integer-divided by 3), with a 100 ms sleep
between consecutive legs (the source also sleeps once after the final
leg); and any input of fewer than 2 points returns failure with an empty
command trace. -/
theorem complex_swipe_decomposition
    (f : Int → Int → Int → Int → Int → Bool) (a b c d : Int × Int) :
    (complex_swipe f [a, b, c, d] 1500).2 =
      [.swipe a.1 a.2 b.1 b.2 500, .sleep_ms 100,
       .swipe b.1 b.2 c.1 c.2 500, .sleep_ms 100,
       .swipe c.1 c.2 d.1 d.2 500, .sleep_ms 100] ∧
    (∀ (pts : List (Int × Int)) (dur : Int), pts.length < 2 →
      complex_swipe f pts dur = (false, [])) := by
  constructor
  · have h₁ : complex_swipe f [a, b, c, d] 1500 = swipeLegs f 500 [a, b, c, d] := by
      unfold complex_swipe
      norm_num
    rw [h₁]
    rfl
  · intro pts dur hlen
    simp [complex_swipe, hlen]

/-- C7 witness: the decomposition theorem at concrete points, and the
single-point failure case. -/
theorem complex_swipe_decomposition_witness :
    (complex_swipe (fun _ _ _ _ _ => true)
        [(0, 0), (10, 0), (20, 0), (30, 0)] 1500).2 =
      [.swipe 0 0 10 0 500, .sleep_ms 100,
       .swipe 10 0 20 0 500, .sleep_ms 100,
       .swipe 20 0 30 0 500, .sleep_ms 100] ∧
    complex_swipe (fun _ _ _ _ _ => true) [(5, 5)] 1500 = (false, []) :=
  ⟨(complex_swipe_decomposition _ (0, 0) (10, 0) (20, 0) (30, 0)).1,
   (complex_swipe_decomposition (fun _ _ _ _ _ => true)
     (0, 0) (10, 0) (20, 0) (30, 0)).2 [(5, 5)] 1500 (by decide)⟩

/-! Resource check (`PerformanceMonitor.check_resources`,
`src/utils/performance.py` lines 178-211).  The sampled metrics (CPU,
memory and disk percentages, available memory in MB) are exact rationals
standing for the floats psutil returns; a sampling failure is the
`Except.error` case, which the source treats as "resources OK". -/

/-- The metrics `check_resources` consults after `update_metrics`. -/
structure ResourceMetrics where
  cpu_usage : ℚ
  memory_usage : ℚ
  disk_usage : ℚ
  available_memory_mb : ℚ

/-- Embedding of `PerformanceMonitor.check_resources`: not-OK when
CPU > 95, memory > 90, disk > 95 or available memory < 500 MB; any
exception during the check yields OK (fail-open). -/
def check_resources : Except Unit ResourceMetrics → Bool
  | .error _ => true
  | .ok m =>
    if m.cpu_usage > 95 then false
    else if m.memory_usage > 90 then false
    else if m.disk_usage > 95 then false
    else if m.available_memory_mb < 500 then false
    else true

/-- C8: `check_resources` reports not-OK at CPU 96% and OK at exactly
95% (other thresholds nominal); not-OK at 499 MB available and OK at
exactly 500 MB (other thresholds nominal, memory > 90% and disk > 95%
being the remaining cutoffs); and an exception during the check reports
OK. -/
theorem check_resources_thresholds (m : ResourceMetrics) :
    (m.cpu_usage = 96 → check_resources (.ok m) = false) ∧
    (m.cpu_usage = 95 → m.memory_usage ≤ 90 → m.disk_usage ≤ 95 →
      500 ≤ m.available_memory_mb → check_resources (.ok m) = true) ∧
    (m.available_memory_mb = 499 → check_resources (.ok m) = false) ∧
    (m.available_memory_mb = 500 → m.cpu_usage ≤ 95 → m.memory_usage ≤ 90 →
      m.disk_usage ≤ 95 → check_resources (.ok m) = true) ∧
    check_resources (.error ()) = true := by
  refine ⟨fun h₁ => ?_, fun h₁ h₂ h₃ h₄ => ?_, fun h₁ => ?_,
    fun h₁ h₂ h₃ h₄ => ?_, rfl⟩
  · simp only [check_resources, h₁]
    norm_num
  · simp only [check_resources]
    rw [if_neg (by rw [h₁]; norm_num), if_neg (by simpa using h₂),
      if_neg (by simpa using h₃), if_neg (by simpa using h₄)]
  · simp only [check_resources]
    split
    · rfl
    split
    · rfl
    split
    · rfl
    rw [if_pos (by rw [h₁]; norm_num)]
  · simp only [check_resources]
    rw [if_neg (by simpa using h₂), if_neg (by simpa using h₃),
      if_neg (by simpa using h₄), if_neg (by rw [h₁]; norm_num)]

/-- C8 witness: the threshold theorem at concrete metric samples. -/
theorem check_resources_thresholds_witness :
    check_resources (.ok ⟨96, 50, 50, 8000⟩) = false ∧
    check_resources (.ok ⟨95, 50, 50, 8000⟩) = true ∧
    check_resources (.ok ⟨10, 50, 50, 499⟩) = false ∧
    check_resources (.ok ⟨10, 50, 50, 500⟩) = true ∧
    check_resources (.error ()) = true :=
  ⟨(check_resources_thresholds ⟨96, 50, 50, 8000⟩).1 rfl,
   (check_resources_thresholds ⟨95, 50, 50, 8000⟩).2.1 rfl (by norm_num)
     (by norm_num) (by norm_num),
   (check_resources_thresholds ⟨10, 50, 50, 499⟩).2.2.1 rfl,
   (check_resources_thresholds ⟨10, 50, 50, 500⟩).2.2.2.1 rfl (by norm_num)
     (by norm_num) (by norm_num),
   (check_resources_thresholds ⟨10, 50, 50, 500⟩).2.2.2.2⟩

/-! Settings model (`BotSettings`, `src/models/settings.py`).  A Python
attribute value is modelled by `PyVal`; floats are decimal literals in the
source (1.5, 5.0) and are carried as exact decimal-scaled integers, JSON
round-tripping being value-preserving for every value type used.  JSON
serialization/parsing itself is modelled as the identity on the key-value
list.  The object's data attributes are the 15 settings fields plus
`config_path`; Python's `hasattr` is also true of bound methods, which a
data model does not carry, so `setattr` here covers the data
attributes. -/

/-- A Python/JSON value as stored in settings attributes: `None`, a bool,
an int, a float (as `mantissa` times ten to the minus `exp10`), or a
string. -/
inductive PyVal where
  | none
  | bool (b : Bool)
  | int (n : Int)
  | float (mantissa : Int) (exp10 : Nat)
  | str (s : String)
deriving DecidableEq, Repr

/-- The `BotSettings` object: the 15 settings fields initialized by
`__init__` plus the `config_path` attribute. -/
structure BotSettings where
  ldplayer_path : PyVal
  start_server : PyVal
  end_server : PyVal
  click_delay : PyVal
  device_id : PyVal
  emulator_index : PyVal
  assets_path : PyVal
  tessdata_path : PyVal
  dark_theme : PyVal
  auto_start : PyVal
  minimize_to_tray : PyVal
  log_level : PyVal
  log_to_file : PyVal
  performance_monitoring : PyVal
  performance_interval : PyVal
  config_path : PyVal
deriving DecidableEq, Repr

/-- The defaults assigned by `BotSettings.__init__` before any file is
loaded; `repo_root` stands for the directory computed from `__file__`,
and `config_path` is the constructor argument. -/
def default_settings (repo_root : String) (config_path : String) :
    BotSettings where
  ldplayer_path := .none
  start_server := .int 577
  end_server := .int 550
  click_delay := .float 15 1
  device_id := .none
  emulator_index := .str "0"
  assets_path := .str (repo_root ++ "/assets")
  tessdata_path := .none
  dark_theme := .bool true
  auto_start := .bool false
  minimize_to_tray := .bool false
  log_level := .str "INFO"
  log_to_file := .bool true
  performance_monitoring := .bool true
  performance_interval := .float 50 1
  config_path := .str config_path

/-- Embedding of `BotSettings.to_dict`: the 15 settings fields, in source
order; `config_path` is not serialized. -/
def BotSettings.to_dict (s : BotSettings) : List (String × PyVal) :=
  [("ldplayer_path", s.ldplayer_path),
   ("start_server", s.start_server),
   ("end_server", s.end_server),
   ("click_delay", s.click_delay),
   ("device_id", s.device_id),
   ("emulator_index", s.emulator_index),
   ("assets_path", s.assets_path),
   ("tessdata_path", s.tessdata_path),
   ("dark_theme", s.dark_theme),
   ("auto_start", s.auto_start),
   ("minimize_to_tray", s.minimize_to_tray),
   ("log_level", s.log_level),
   ("log_to_file", s.log_to_file),
   ("performance_monitoring", s.performance_monitoring),
   ("performance_interval", s.performance_interval)]

/-- The guarded assignment `if hasattr(self, key): setattr(self, key,
value)` used by both `_load_settings` and `from_dict`: a key naming one of
the object's data attributes (the 15 fields or `config_path`) overwrites
it; any other key is ignored. -/
def BotSettings.setattr (s : BotSettings) (key : String) (v : PyVal) :
    BotSettings :=
  if key = "ldplayer_path" then { s with ldplayer_path := v }
  else if key = "start_server" then { s with start_server := v }
  else if key = "end_server" then { s with end_server := v }
  else if key = "click_delay" then { s with click_delay := v }
  else if key = "device_id" then { s with device_id := v }
  else if key = "emulator_index" then { s with emulator_index := v }
  else if key = "assets_path" then { s with assets_path := v }
  else if key = "tessdata_path" then { s with tessdata_path := v }
  else if key = "dark_theme" then { s with dark_theme := v }
  else if key = "auto_start" then { s with auto_start := v }
  else if key = "minimize_to_tray" then { s with minimize_to_tray := v }
  else if key = "log_level" then { s with log_level := v }
  else if key = "log_to_file" then { s with log_to_file := v }
  else if key = "performance_monitoring" then
    { s with performance_monitoring := v }
  else if key = "performance_interval" then
    { s with performance_interval := v }
  else if key = "config_path" then { s with config_path := v }
  else s

/-- Embedding of `BotSettings.from_dict` (also the loop body of
`_load_settings`): apply every key of the dictionary in order through the
`hasattr`-guarded assignment. -/
def BotSettings.from_dict (s : BotSettings) (d : List (String × PyVal)) :
    BotSettings :=
  d.foldl (fun acc kv => acc.setattr kv.1 kv.2) s

/-- The names of the object's data attributes (`hasattr` targets). -/
def attrNames : List String :=
  ["ldplayer_path", "start_server", "end_server", "click_delay",
   "device_id", "emulator_index", "assets_path", "tessdata_path",
   "dark_theme", "auto_start", "minimize_to_tray", "log_level",
   "log_to_file", "performance_monitoring", "performance_interval",
   "config_path"]

/-- C6 counterexample: the claim speaks of 14 settings fields and says a
key that is not one of them is ignored, leaving the rest of the object
unaffected; but `to_dict` serializes 15 fields, and loading a dictionary
whose key is `config_path` — not a settings field — overwrites the
object's configuration path. -/
theorem settings_claim_counterexample :
    ((default_settings ("r") ("config.json")).to_dict).length = 15 ∧
    "config_path" ∉
      ((default_settings ("r") ("config.json")).to_dict).map Prod.fst ∧
    (default_settings ("r") ("config.json")).from_dict
        [("config_path", .str ("evil.json"))] =
      { default_settings ("r") ("config.json") with
          config_path := .str ("evil.json") } ∧
    PyVal.str ("evil.json") ≠ PyVal.str ("config.json") := by
  refine ⟨rfl, by decide, rfl, by decide⟩

/-- C6 (amended): saving a settings object and reloading its dictionary
into a fresh default instance reproduces every one of the 15 settings
fields exactly (the fresh instance keeps its own configuration path,
which is never serialized), and loading a dictionary whose key names none
of the object's data attributes leaves the object entirely unchanged and
raises no error; a key naming the non-serialized `config_path` attribute,
however, does overwrite it. -/
theorem settings_amended :
    (∀ (rr cp : String) (s : BotSettings),
      (default_settings rr cp).from_dict s.to_dict =
        { s with config_path := .str cp }) ∧
    (∀ (s : BotSettings) (k : String) (v : PyVal), k ∉ attrNames →
      s.from_dict [(k, v)] = s) := by
  constructor
  · intro rr cp s
    simp [BotSettings.from_dict, BotSettings.to_dict, BotSettings.setattr,
      default_settings]
  · intro s k v hk
    simp only [attrNames, List.mem_cons, List.not_mem_nil, or_false,
      not_or] at hk
    obtain ⟨h₁, h₂, h₃, h₄, h₅, h₆, h₇, h₈, h₉, h₁₀, h₁₁, h₁₂, h₁₃, h₁₄,
      h₁₅, h₁₆⟩ := hk
    simp [BotSettings.from_dict, BotSettings.setattr, h₁, h₂, h₃, h₄, h₅,
      h₆, h₇, h₈, h₉, h₁₀, h₁₁, h₁₂, h₁₃, h₁₄, h₁₅, h₁₆]

/-- C6 witness: the amended theorem applied to a concrete settings object
with every field distinct from the defaults, and to the unknown key
`romance` (naming no attribute). -/
theorem settings_amended_witness :
    (default_settings ("root2") ("other.json")).from_dict
        (BotSettings.to_dict
          ⟨.str ("L"), .int 9, .int 8, .float 7 0, .str ("D"), .str ("1"),
           .str ("A"), .str ("T"), .bool false, .bool true, .bool true,
           .str ("DEBUG"), .bool false, .bool false, .float 9 0,
           .str ("old.json")⟩) =
      { (⟨.str ("L"), .int 9, .int 8, .float 7 0, .str ("D"), .str ("1"),
           .str ("A"), .str ("T"), .bool false, .bool true, .bool true,
           .str ("DEBUG"), .bool false, .bool false, .float 9 0,
           .str ("old.json")⟩ : BotSettings) with
         config_path := .str ("other.json") } ∧
    (default_settings ("r") ("c")).from_dict [("romance", .int 1)] =
      default_settings ("r") ("c") :=
  ⟨settings_amended.1 ("root2") ("other.json") _,
   settings_amended.2 _ ("romance") (.int 1) (by decide)⟩

/-! Season text matching (`TextRecognition.find_season` and
`TextRecognition._fuzzy_season_match`, `src/core/recognition/text.py`
lines 184-253).  OCR itself is an oracle: `find_season` is embedded over
the list of detected text regions paired with the text OCR read in each,
which is exactly what the source loop consumes.  Python's `str.lower` is
modelled for the Latin range and the Cyrillic range the season strings
use; `str.strip` drops leading/trailing whitespace.  The regular
expression `[Ss5][d]` (d the digit suffix) reduces, for the character
classes the source builds, to searching for an adjacent pair from the two
classes. -/

/-- Lowercasing of one character as Python's `str.lower` acts on the
alphabets in play: Cyrillic А-Я and Ё map down by the standard offsets,
ASCII by `Char.toLower`. -/
def pyLowerChar (c : Char) : Char :=
  if 0x410 ≤ c.toNat ∧ c.toNat ≤ 0x42F then Char.ofNat (c.toNat + 0x20)
  else if c.toNat = 0x401 then Char.ofNat 0x451
  else c.toLower

/-- Pythonic `str.lower` over a string. -/
def pyLower (s : String) : String :=
  ⟨s.toList.map pyLowerChar⟩

/-- Pythonic `str.strip`: remove leading and trailing whitespace. -/
def pyStrip (s : String) : String :=
  ⟨((s.toList.dropWhile Char.isWhitespace).reverse.dropWhile
      Char.isWhitespace).reverse⟩

/-- Pythonic substring containment `needle in hay`. -/
def hasSubstr (needle : List Char) : List Char → Bool
  | [] => needle.isEmpty
  | c :: rest => needle.isPrefixOf (c :: rest) || hasSubstr needle rest

/-- Helper for Pythonic whitespace `str.split`: accumulate the current
word (reversed) while scanning. -/
def pySplitAux : List Char → List Char → List (List Char)
  | [], acc => if acc.isEmpty then [] else [acc.reverse]
  | c :: rest, acc =>
    if c.isWhitespace then
      if acc.isEmpty then pySplitAux rest []
      else acc.reverse :: pySplitAux rest []
    else pySplitAux rest (c :: acc)

/-- Pythonic `str.split()` with no argument: split on whitespace runs,
discarding empty words. -/
def pySplit (s : List Char) : List (List Char) :=
  pySplitAux s []

/-- Search for two adjacent characters drawn from the two character
classes — the meaning of the source's `re.search` of a two-class regex
such as `[Ss5][1]`. -/
def regexSearchPair (cls1 cls2 : List Char) : List Char → Bool
  | a :: b :: rest =>
    (cls1.contains a && cls2.contains b) || regexSearchPair cls1 cls2 (b :: rest)
  | _ => false

/-- Embedding of `TextRecognition._fuzzy_season_match(text, target)`:
split the target into exactly two words; require the text to contain one
of the three tolerated corruptions of the word Season («сез», «ce3»,
«сeз»); then, if the season number starts with capital S, search the text
for `[Ss5]` followed by the digit suffix, if with capital X, for
`[XxХх]` (Latin and Cyrillic lookalikes) followed by the digit suffix;
any other shape yields no match. -/
def fuzzy_season_match (text target : String) : Bool :=
  match pySplit target.toList with
  | [_, season_number] =>
    if !(hasSubstr ("сез".toList) text.toList ||
         hasSubstr ("ce3".toList) text.toList ||
         hasSubstr ("сeз".toList) text.toList) then false
    else
      match season_number with
      | 'S' :: num => regexSearchPair ['S', 's', '5'] num text.toList
      | 'X' :: num => regexSearchPair ['X', 'x', 'Х', 'х'] num text.toList
      | _ => false
  | _ => false

/-- A text region produced by `find_text_regions`: bounding box `(x, y,
w, h)`. -/
structure TextRegion where
  x : Int
  y : Int
  w : Int
  h : Int
deriving DecidableEq, Repr

/-- Embedding of `TextRecognition.find_season` over the OCR oracle: for
each region and its recognized text, normalize both text and target by
`strip().lower()`, then accept on substring containment or on the fuzzy
match, returning the region's center `(x + w // 2, y + h // 2)`; return
`None` when no region matches. -/
def find_season : List (TextRegion × String) → String → Option (Int × Int)
  | [], _ => Option.none
  | (r, text) :: rest, target_season =>
    let normalized_text := pyLower (pyStrip text)
    let normalized_target := pyLower (pyStrip target_season)
    if hasSubstr normalized_target.toList normalized_text.toList ||
       fuzzy_season_match normalized_text normalized_target then
      some (r.x + r.w / 2, r.y + r.h / 2)
    else
      find_season rest target_season

/-- C5: the fuzzy season rule is dead code as reached from `find_season`.
A region whose OCR text «Ce3он 51» contains the tolerated corruption
«ce3» of the word Season and contains the suffix pattern `[Ss5][1]` for
season S1, while not containing the exact (case-insensitive) substring
«сезон s1», is claimed to yield that region's center; but `find_season`
lowercases the target to «сезон s1» before calling the fuzzy match, whose
capital-S/capital-X checks then both fail, so `find_season` returns
`None`. -/
theorem find_season_fuzzy_dead :
    find_season [(⟨100, 200, 40, 20⟩, "Ce3он 51")] ("Сезон S1")
      = Option.none ∧
    hasSubstr ("ce3".toList) ((pyLower (pyStrip ("Ce3он 51"))).toList)
      = true ∧
    regexSearchPair ['S', 's', '5'] ['1']
      ((pyLower (pyStrip ("Ce3он 51"))).toList) = true ∧
    hasSubstr ((pyLower (pyStrip ("Сезон S1"))).toList)
      ((pyLower (pyStrip ("Ce3он 51"))).toList) = false ∧
    fuzzy_season_match (pyLower (pyStrip ("Ce3он 51")))
      (pyLower (pyStrip ("Сезон S1"))) = false := by
  decide

/-! Overlap suppression (`ImageRecognition._non_max_suppression`,
`src/core/recognition/image.py` lines 149-208).  A candidate is an
`(x, y, w, h)` box; the source converts to corners `(x, y, x+w, y+h)`,
computes areas `(x2-x1+1)*(y2-y1+1)`, sorts indices by area descending
(`np.argsort(area)[::-1]`), and repeatedly picks the LAST index of that
order — the smallest remaining area — keeping it and deleting every
other candidate whose intersection with the pick, divided by that
candidate's own area, exceeds 0.3.  Picking the last element of a
descending order is the same as walking a stable ascending order from
the front, which is how the loop is embedded here (tie order among equal
areas is unspecified in `np.argsort`; the embedding fixes the stable
choice).  The float comparison `overlap > 0.3` is written integrally as
`10 * intersection > 3 * area`, equivalent for the positive areas that
arise. -/

/-- A candidate rectangle `(x, y, w, h)`. -/
structure Box where
  x : Int
  y : Int
  w : Int
  h : Int
deriving DecidableEq, Repr

/-- The source's area of a box after corner conversion:
`(x2 - x1 + 1) * (y2 - y1 + 1) = (w + 1) * (h + 1)`. -/
def Box.area (b : Box) : Int :=
  (b.w + 1) * (b.h + 1)

/-- The source's intersection area of two boxes:
`max(0, xx2 - xx1 + 1) * max(0, yy2 - yy1 + 1)` over the corner
overlaps. -/
def interArea (p b : Box) : Int :=
  max 0 (min (p.x + p.w) (b.x + b.w) - max p.x b.x + 1) *
    max 0 (min (p.y + p.h) (b.y + b.h) - max p.y b.y + 1)

/-- Whether candidate `b` is deleted once `p` is picked: the intersection
over `b`'s own area exceeds the 0.3 cutoff. -/
def suppressed (p b : Box) : Bool :=
  10 * interArea p b > 3 * Box.area b

/-- Area order on boxes (the sort key of `np.argsort(area)`). -/
def areaLe (a b : Box) : Prop :=
  Box.area a ≤ Box.area b

instance : DecidableRel areaLe :=
  fun a b => inferInstanceAs (Decidable (Box.area a ≤ Box.area b))

instance : IsTotal Box areaLe :=
  ⟨fun a b => Int.le_total (Box.area a) (Box.area b)⟩

instance : IsTrans Box areaLe :=
  ⟨fun _ _ _ h₁ h₂ => le_trans h₁ h₂⟩

/-- Stable ascending sort by area: the order in which the source's loop
picks candidates (last of the descending `argsort` first). -/
def sortByArea (l : List Box) : List Box :=
  List.insertionSort areaLe l

/-- The suppression loop over the ascending order, with explicit fuel
(one unit per pick; the remaining list shrinks by at least one per
pick): keep the front pick `p`, delete the suppressed candidates, and
continue. -/
def nmsLoopFuel : Nat → List Box → List Box
  | 0, _ => []
  | _ + 1, [] => []
  | fuel + 1, p :: rest =>
    p :: nmsLoopFuel fuel (rest.filter (fun b => !suppressed p b))

/-- The suppression loop, starting with enough fuel. -/
def nmsLoop (l : List Box) : List Box :=
  nmsLoopFuel l.length l

/-- Embedding of `ImageRecognition._non_max_suppression` at the default
cutoff 0.3: sort by area and run the greedy suppression loop; the result
lists the kept boxes in pick order. -/
def non_max_suppression (boxes : List Box) : List Box :=
  nmsLoop (sortByArea boxes)

/-- The fuel argument is irrelevant once it is at least the list
length. -/
theorem nmsLoopFuel_eq :
    ∀ (f₁ f₂ : Nat) (l : List Box), l.length ≤ f₁ → l.length ≤ f₂ →
      nmsLoopFuel f₁ l = nmsLoopFuel f₂ l
  | f₁, f₂, [], _, _ => by
    cases f₁ <;> cases f₂ <;> rfl
  | 0, _, p :: rest, h₁, _ => by simp at h₁
  | _ + 1, 0, p :: rest, _, h₂ => by simp at h₂
  | f₁ + 1, f₂ + 1, p :: rest, h₁, h₂ => by
    simp only [nmsLoopFuel]
    refine congrArg _ (nmsLoopFuel_eq f₁ f₂ _ ?_ ?_) <;>
      exact le_trans (List.length_filter_le _ _)
        (Nat.lt_succ_iff.mp (by simpa using ‹_ ≤ _ + 1›))

/-- Unfolding the loop one pick at a time. -/
theorem nmsLoop_cons (p : Box) (rest : List Box) :
    nmsLoop (p :: rest) =
      p :: nmsLoop (rest.filter (fun b => !suppressed p b)) := by
  show nmsLoopFuel (p :: rest).length (p :: rest) = _
  simp only [List.length_cons, nmsLoopFuel]
  exact congrArg _ (nmsLoopFuel_eq rest.length _ _
    (List.length_filter_le _ _) le_rfl)

/-- The loop keeps a sublist of its input. -/
theorem nmsLoop_sublist_aux :
    ∀ (n : Nat) (l : List Box), l.length ≤ n → List.Sublist (nmsLoop l) l
  | _, [], _ => by simp [nmsLoop, nmsLoopFuel]
  | 0, p :: rest, h => by simp at h
  | n + 1, p :: rest, h => by
    rw [nmsLoop_cons]
    have hle : (rest.filter (fun b => !suppressed p b)).length ≤ n :=
      le_trans (List.length_filter_le _ _) (by simpa using h)
    exact ((nmsLoop_sublist_aux n _ hle).trans
      (List.filter_sublist _)).cons₂ p

/-- The loop keeps a sublist of its input (packaged form). -/
theorem nmsLoop_sublist (l : List Box) : List.Sublist (nmsLoop l) l :=
  nmsLoop_sublist_aux l.length l le_rfl

/-- Running the loop on its own output changes nothing: every survivor of
the first pick already passed the filter of every earlier pick. -/
theorem nmsLoop_idem_aux :
    ∀ (n : Nat) (l : List Box), l.length ≤ n →
      nmsLoop (nmsLoop l) = nmsLoop l
  | _, [], _ => by simp [nmsLoop, nmsLoopFuel]
  | 0, p :: rest, h => by simp at h
  | n + 1, p :: rest, h => by
    rw [nmsLoop_cons, nmsLoop_cons]
    refine congrArg _ ?_
    have hforall :
        ∀ b ∈ nmsLoop (rest.filter (fun b => !suppressed p b)),
          (!suppressed p b) = true := by
      intro b hb
      have hmem : b ∈ rest.filter (fun b => !suppressed p b) :=
        (nmsLoop_sublist _).subset hb
      simpa using (List.mem_filter.mp hmem).2
    rw [List.filter_eq_self.mpr hforall]
    have hle : (rest.filter (fun b => !suppressed p b)).length ≤ n :=
      le_trans (List.length_filter_le _ _) (by simpa using h)
    exact nmsLoop_idem_aux n _ hle

/-- The loop preserves ascending-by-area order. -/
theorem nmsLoop_sorted {l : List Box} (h : List.Sorted areaLe l) :
    List.Sorted areaLe (nmsLoop l) :=
  h.sublist (nmsLoop_sublist l)

/-- Intersection area is symmetric in its two boxes. -/
theorem interArea_comm (p b : Box) : interArea p b = interArea b p := by
  unfold interArea
  rw [min_comm (p.x + p.w), max_comm p.x, min_comm (p.y + p.h),
    max_comm p.y]

/-- Two boxes with empty intersection survive one pick round: neither
suppresses the other (for nonnegative areas). -/
theorem nmsLoop_pair_disjoint {p q : Box} (hq : 0 ≤ Box.area q)
    (h0 : interArea p q = 0) : nmsLoop [p, q] = [p, q] := by
  have hsup : suppressed p q = false := by
    simp only [suppressed, h0, mul_zero, decide_eq_false_iff_not, not_lt]
    omega
  rw [nmsLoop_cons]
  simp [hsup, nmsLoop_cons, nmsLoop, nmsLoopFuel]

/-- C4 counterexample: two nested rectangles whose overlap fraction
relative to the smaller one's area is 1 (well above the 0.3 cutoff), for
which the claim predicts that only the larger survives; the pass instead
keeps exactly the smaller one, because the greedy loop picks the
smallest area first and measures overlap against the other (larger)
candidate's area. -/
theorem nms_claim_counterexample :
    10 * interArea ⟨0, 0, 15, 15⟩ ⟨0, 0, 10, 10⟩
        > 3 * Box.area ⟨0, 0, 10, 10⟩ ∧
    Box.area ⟨0, 0, 10, 10⟩ < Box.area ⟨0, 0, 15, 15⟩ ∧
    non_max_suppression [⟨0, 0, 10, 10⟩, ⟨0, 0, 15, 15⟩]
      = [⟨0, 0, 10, 10⟩] := by
  decide

/-- C4 (amended): the pass is idempotent — applying it twice equals
applying it once; for two rectangles of distinct areas whose intersection
exceeds 0.3 of the LARGER one's area, only the SMALLER-area rectangle
survives, in either input order (smallest-area-first greedy suppression,
overlap measured against the competing candidate's area); and two
disjoint rectangles (of nonnegative areas) both survive. -/
theorem nms_amended :
    (∀ l : List Box,
      non_max_suppression (non_max_suppression l) = non_max_suppression l) ∧
    (∀ a b : Box, Box.area a < Box.area b → suppressed a b = true →
      non_max_suppression [a, b] = [a] ∧
      non_max_suppression [b, a] = [a]) ∧
    (∀ a b : Box, 0 ≤ Box.area a → 0 ≤ Box.area b → interArea a b = 0 →
      a ∈ non_max_suppression [a, b] ∧ b ∈ non_max_suppression [a, b]) := by
  refine ⟨fun l => ?_, fun a b hab hsup => ?_, fun a b ha hb h0 => ?_⟩
  · show nmsLoop (sortByArea (nmsLoop (sortByArea l))) = nmsLoop (sortByArea l)
    have hs : List.Sorted areaLe (nmsLoop (sortByArea l)) :=
      nmsLoop_sorted (List.sorted_insertionSort areaLe l)
    have he : sortByArea (nmsLoop (sortByArea l)) = nmsLoop (sortByArea l) :=
      hs.insertionSort_eq
    rw [he]
    exact nmsLoop_idem_aux (sortByArea l).length _ le_rfl
  · have hsort₁ : sortByArea [a, b] = [a, b] := by
      unfold sortByArea
      simp only [List.insertionSort, List.orderedInsert_nil,
        List.orderedInsert]
      have hab' : areaLe a b := le_of_lt hab
      rw [if_pos hab']
    have hsort₂ : sortByArea [b, a] = [a, b] := by
      unfold sortByArea
      simp only [List.insertionSort, List.orderedInsert_nil,
        List.orderedInsert]
      have hab'' : ¬areaLe b a := not_le.mpr hab
      rw [if_neg hab'']
    have hloop : nmsLoop [a, b] = [a] := by
      rw [nmsLoop_cons]
      simp [hsup, nmsLoop, nmsLoopFuel]
    constructor
    · show nmsLoop (sortByArea [a, b]) = [a]
      rw [hsort₁, hloop]
    · show nmsLoop (sortByArea [b, a]) = [a]
      rw [hsort₂, hloop]
  · by_cases hle : areaLe a b
    · have hsort : sortByArea [a, b] = [a, b] := by
        unfold sortByArea
        simp only [List.insertionSort, List.orderedInsert_nil,
          List.orderedInsert]
        rw [if_pos hle]
      have hkeep : non_max_suppression [a, b] = [a, b] := by
        show nmsLoop (sortByArea [a, b]) = [a, b]
        rw [hsort]
        exact nmsLoop_pair_disjoint hb h0
      simp [hkeep]
    · have hsort : sortByArea [a, b] = [b, a] := by
        unfold sortByArea
        simp only [List.insertionSort, List.orderedInsert_nil,
          List.orderedInsert]
        rw [if_neg hle]
      have hkeep : non_max_suppression [a, b] = [b, a] := by
        show nmsLoop (sortByArea [a, b]) = [b, a]
        rw [hsort]
        exact nmsLoop_pair_disjoint ha (interArea_comm a b ▸ h0)
      simp [hkeep]

/-- C4 witness: the amended theorem at concrete rectangles — idempotence
on a nested pair, smaller-survives on the same pair in both orders, and
joint survival of two far-apart boxes. -/
theorem nms_amended_witness :
    non_max_suppression
        (non_max_suppression [(⟨0, 0, 10, 10⟩ : Box), ⟨0, 0, 15, 15⟩])
      = non_max_suppression [(⟨0, 0, 10, 10⟩ : Box), ⟨0, 0, 15, 15⟩] ∧
    (non_max_suppression [(⟨20, 20, 10, 10⟩ : Box), ⟨18, 18, 15, 15⟩]
        = [⟨20, 20, 10, 10⟩] ∧
      non_max_suppression [(⟨18, 18, 15, 15⟩ : Box), ⟨20, 20, 10, 10⟩]
        = [⟨20, 20, 10, 10⟩]) ∧
    ((⟨0, 0, 5, 5⟩ : Box) ∈
        non_max_suppression [⟨0, 0, 5, 5⟩, ⟨100, 100, 7, 7⟩] ∧
      (⟨100, 100, 7, 7⟩ : Box) ∈
        non_max_suppression [⟨0, 0, 5, 5⟩, ⟨100, 100, 7, 7⟩]) :=
  ⟨nms_amended.1 [⟨0, 0, 10, 10⟩, ⟨0, 0, 15, 15⟩],
   nms_amended.2.1 ⟨20, 20, 10, 10⟩ ⟨18, 18, 15, 15⟩ (by decide) (by decide),
   nms_amended.2.2 ⟨0, 0, 5, 5⟩ ⟨100, 100, 7, 7⟩ (by decide) (by decide)
     (by decide)⟩

end SoC
